import Mathlib

/-!
Shallow embedding of the bth-valuation-api serverless handler
(src/api/valuation.js, together with the two sibling handler variants found
in src/unnamed/part_000 and src/unnamed/part_001), and theorems checking the
specification's claims about it.

JavaScript values that can flow through the handler are modelled by `JsVal`;
JS numbers are modelled as exact rationals (the IEEE-754 representation and
the non-finite values Infinity and -Infinity, which cannot appear in a JSON
numeric literal, are outside the model).  The two external collaborators
(the language-model call and the email-send call) are modelled as explicit
oracle arguments of the handler function.
-/

/-- JavaScript runtime values as they occur in the request body and in the
parsed JSON reply of the language model: the two nullish values, `NaN`,
booleans, finite numbers (as exact rationals), strings, arrays and plain
objects. -/
inductive JsVal where
  | undefined_
  | null_
  | nan
  | bool_ (b : Bool)
  | num (q : ℚ)
  | str (s : String)
  | arr (elems : List JsVal)
  | obj

/-- JavaScript truthiness: `undefined`, `null`, `NaN`, `false`, `0` and `""`
are falsy; every other value (including arrays and objects) is truthy. -/
def truthy : JsVal → Bool
  | .undefined_ => false
  | .null_ => false
  | .nan => false
  | .bool_ b => b
  | .num q => q != 0
  | .str s => s != ""
  | .arr _ => true
  | .obj => true

/-- JavaScript word characters, the regex class `\w` = `[A-Za-z0-9_]`. -/
def isWordChar (c : Char) : Bool := c.isAlpha || c.isDigit || c == '_'

/-- A word boundary stands before the current position: start of input, or
the previous character is not a word character (the matched keywords start
with word characters, so `\b` reduces to this case). -/
def boundaryAt : Option Char → Bool
  | none => true
  | some c => !isWordChar c

/-- Does `w` occur in the remaining input at a position preceded by a word
boundary?  `prev` is the character just before the remaining input. -/
def bMatchFrom (w : List Char) : Option Char → List Char → Bool
  | prev, [] => boundaryAt prev && w.isPrefixOf ([] : List Char)
  | prev, c :: rest =>
      (boundaryAt prev && w.isPrefixOf (c :: rest)) || bMatchFrom w (some c) rest

/-- Regex fragment `\bpat`: `pat` occurs somewhere in `s` right after a word
boundary. -/
def bMatch (s pat : String) : Bool := bMatchFrom pat.data none s.data

/-- Does `pat` occur as a contiguous run inside the list? -/
def containsList (pat : List Char) : List Char → Bool
  | [] => pat.isEmpty
  | c :: rest => pat.isPrefixOf (c :: rest) || containsList pat rest

/-- Plain substring occurrence, one bare alternative of the source regexes
(a JS regex alternative without `\b` matches anywhere in the input). -/
def containsStr (s pat : String) : Bool := containsList pat.data s.data

/-- JavaScript `String.prototype.toLowerCase` restricted to ASCII input, as a
structurally recursive map over the characters. -/
def jsToLower (s : String) : String := String.mk (s.data.map Char.toLower)

/-- Regex fragment `\s*online` anchored at the start of the input. -/
def wsThenOnline : List Char → Bool
  | [] => false
  | c :: rest =>
      ("online".data.isPrefixOf (c :: rest)) ||
      (c.isWhitespace && wsThenOnline rest)

/-- Regex fragment `store\s*online` occurring anywhere in the input. -/
def storeThenOnline : List Char → Bool
  | [] => false
  | c :: rest =>
      ("store".data.isPrefixOf (c :: rest) &&
        wsThenOnline (List.drop 5 (c :: rest))) ||
      storeThenOnline rest

/-- Rule 1 of `inferCategory`: `/\bcafe|coffee|espresso|coffee shop/`. -/
def matchCafe (s : String) : Bool :=
  bMatch s "cafe" || containsStr s "coffee" || containsStr s "espresso" ||
    containsStr s "coffee shop"

/-- Rule 2: `/\brestaurant|bistro|takeaway|take-away|food truck|burger|pizza/`. -/
def matchRestaurant (s : String) : Bool :=
  bMatch s "restaurant" || containsStr s "bistro" || containsStr s "takeaway" ||
    containsStr s "take-away" || containsStr s "food truck" ||
    containsStr s "burger" || containsStr s "pizza"

/-- Rule 3: `/\bretail|shop|store|boutique|florist|grocery|supermarket/`. -/
def matchRetail (s : String) : Bool :=
  bMatch s "retail" || containsStr s "shop" || containsStr s "store" ||
    containsStr s "boutique" || containsStr s "florist" ||
    containsStr s "grocery" || containsStr s "supermarket"

/-- Rule 4: `/\bsalon|barber|spa|beauty|nail/`. -/
def matchBeauty (s : String) : Bool :=
  bMatch s "salon" || containsStr s "barber" || containsStr s "spa" ||
    containsStr s "beauty" || containsStr s "nail"

/-- Rule 5: `/\bgym|fitness|pilates|yoga|personal training/`. -/
def matchFitness (s : String) : Bool :=
  bMatch s "gym" || containsStr s "fitness" || containsStr s "pilates" ||
    containsStr s "yoga" || containsStr s "personal training"

/-- Rule 6: `/\bclinic|medical|dental|dentist|physio|chiro|pharmacy/`. -/
def matchHealthcare (s : String) : Bool :=
  bMatch s "clinic" || containsStr s "medical" || containsStr s "dental" ||
    containsStr s "dentist" || containsStr s "physio" || containsStr s "chiro" ||
    containsStr s "pharmacy"

/-- Rule 7: `/\bauto|mechanic|panel beat|car wash|detailing|tyre/`. -/
def matchAutomotive (s : String) : Bool :=
  bMatch s "auto" || containsStr s "mechanic" || containsStr s "panel beat" ||
    containsStr s "car wash" || containsStr s "detailing" || containsStr s "tyre"

/-- Rule 8: `/\bplumb|electric|air[- ]?con|hvac|construction|builder|trade/`. -/
def matchTrades (s : String) : Bool :=
  bMatch s "plumb" || containsStr s "electric" || containsStr s "aircon" ||
    containsStr s "air-con" || containsStr s "air con" || containsStr s "hvac" ||
    containsStr s "construction" || containsStr s "builder" ||
    containsStr s "trade"

/-- Rule 9: `/\bonline|e[- ]?commerce|store\s*online|dropship|saas|software/`. -/
def matchOnline (s : String) : Bool :=
  bMatch s "online" || containsStr s "ecommerce" || containsStr s "e-commerce" ||
    containsStr s "e commerce" || storeThenOnline s.data ||
    containsStr s "dropship" || containsStr s "saas" || containsStr s "software"

/-- Rule 10: `/\boffice|consult|accountant|law|legal|agency|marketing|design/`. -/
def matchServices (s : String) : Bool :=
  bMatch s "office" || containsStr s "consult" || containsStr s "accountant" ||
    containsStr s "law" || containsStr s "legal" || containsStr s "agency" ||
    containsStr s "marketing" || containsStr s "design"

/-- Priority if-chain of `inferCategory`, applied to the already-lowered
text, translated rule for rule from src/api/valuation.js lines 32-50 (the
identical function also appears in src/unnamed/part_001 lines 36-54). -/
def inferCategoryCore (s : String) : String :=
  if matchCafe s then "cafe"
  else if matchRestaurant s then "restaurant"
  else if matchRetail s then "retail"
  else if matchBeauty s then "beauty"
  else if matchFitness s then "fitness"
  else if matchHealthcare s then "healthcare"
  else if matchAutomotive s then "automotive"
  else if matchTrades s then "trades"
  else if matchOnline s then "online"
  else if matchServices s then "services"
  else "generic"

/-- `inferCategory` from src/api/valuation.js lines 29-51: lower-case the
free-text business type, then run the priority rules. -/
def inferCategory (businessTypeRaw : String) : String :=
  inferCategoryCore (jsToLower businessTypeRaw)

/-- The fixed category set of the repository (the keys of `categoryImages`). -/
def categorySet : List String :=
  ["cafe", "restaurant", "retail", "services", "trades", "beauty", "fitness",
   "healthcare", "automotive", "online", "generic"]

/-- Modelled from the spec's words (§4.4): the keyword rules as an ordered
list, first match wins, with "generic" when no rule matches.  This is the
spec-side description that claim C1 compares against the source's if-chain. -/
def categoryRules : List (String × (String → Bool)) :=
  [("cafe", matchCafe), ("restaurant", matchRestaurant), ("retail", matchRetail),
   ("beauty", matchBeauty), ("fitness", matchFitness),
   ("healthcare", matchHealthcare), ("automotive", matchAutomotive),
   ("trades", matchTrades), ("online", matchOnline), ("services", matchServices)]

/-- Spec-side category inference: the first rule of `categoryRules` whose
matcher accepts the lower-cased input, defaulting to "generic". -/
def specInferCategory (input : String) : String :=
  match categoryRules.find? (fun r => r.2 (jsToLower input)) with
  | some r => r.1
  | none => "generic"

/-- The two JavaScript nullish values. -/
def isNullish : JsVal → Bool
  | .undefined_ => true
  | .null_ => true
  | _ => false

/-- Decimal digits of a natural number, most significant first. -/
def natDigits (n : Nat) : String := String.mk (Nat.toDigits 10 n)

/-- Decimal string of an integer. -/
def intString (i : ℤ) : String :=
  (if i < 0 then "-" else "") ++ natDigits i.natAbs

/-- Fractional decimal digits of a rational in `[0, 1)`, up to `fuel` many. -/
def fracDigits : Nat → ℚ → List Char
  | 0, _ => []
  | fuel + 1, q =>
      if q = 0 then []
      else
        Char.ofNat (48 + (Int.floor (q * 10)).toNat) ::
          fracDigits fuel (q * 10 - Int.floor (q * 10))

/-- Decimal rendering of the rational model of a JS number: exact for
integers and for terminating decimals of at most twenty places; the
shortest-roundtrip printing of IEEE-754 doubles is outside the rational
model (no claim depends on it). -/
def ratToString (q : ℚ) : String :=
  if q.den = 1 then intString q.num
  else
    (if q < 0 then "-" else "") ++ natDigits (Int.floor |q|).toNat ++ "." ++
      String.mk (fracDigits 20 (|q| - Int.floor |q|))

/-- JavaScript `String(v)` / template-literal interpolation: `undefined`,
`null`, `NaN`, booleans and numbers print their names or digits, strings
print verbatim, arrays join their elements with "," (nullish elements
becoming empty), plain objects print "[object Object]". -/
def jsToString : JsVal → String
  | .undefined_ => "undefined"
  | .null_ => "null"
  | .nan => "NaN"
  | .bool_ true => "true"
  | .bool_ false => "false"
  | .num q => ratToString q
  | .str s => s
  | .obj => "[object Object]"
  | .arr xs =>
      String.intercalate "," (xs.attach.map fun x =>
        if isNullish x.1 then "" else jsToString x.1)
decreasing_by
  have := List.sizeOf_lt_of_mem x.2
  simp only [JsVal.arr.sizeOf_spec]
  omega

/-- JavaScript `a || b`: `a` when truthy, otherwise `b`. -/
def jsOr (a b : JsVal) : JsVal := if truthy a then a else b

/-- JavaScript `Math.round`: round to the nearest integer, halves toward
positive infinity. -/
def jsRound (q : ℚ) : ℤ := Int.floor (q + 1 / 2)

/-- Insert a comma after every third character of a reversed digit list
(the grouping step of en-AU `toLocaleString`). -/
def commasRev : List Char → List Char
  | a :: b :: c :: d :: rest => a :: b :: c :: ',' :: commasRev (d :: rest)
  | l => l

/-- en-AU locale rendering of an integer (thousands separated by commas). -/
def toLocaleStringInt (n : ℤ) : String :=
  (if n < 0 then "-" else "") ++
    String.mk (commasRev (Nat.toDigits 10 n.natAbs).reverse).reverse

/-- Classification of the argument of `formatAUD` by the two tests the
source performs: `value == null` selects the two nullish values,
`isNaN(value)` selects every value whose number coercion is NaN, and
everything else coerces to a finite number (the non-finite coercions
`Infinity`/`-Infinity`, impossible for JSON numeric literals, are outside
the rational model). -/
inductive JsNumArg where
  | nullish
  | nanLike
  | finite (q : ℚ)

/-- `formatAUD` from src/api/valuation.js lines 8-11 (the same helper
appears verbatim in both src/unnamed variants): "-" for nullish or
NaN-coercing input, otherwise `Math.round` then locale grouping. -/
def formatAUD : JsNumArg → String
  | .nullish => "-"
  | .nanLike => "-"
  | .finite q => toLocaleStringInt (jsRound q)

namespace HandlerV2

/-- Base URL of the self-hosted thumbnails (src/unnamed/part_001 line 14). -/
def BASE_THUMB : String := "https://bth-valuation-api.vercel.app/thumbnails"

/-- Category-to-thumbnail association of src/unnamed/part_001 lines 16-28,
in object-key insertion order. -/
def categoryImages : List (String × String) :=
  [("cafe", BASE_THUMB ++ "/cafe.jpg"),
   ("restaurant", BASE_THUMB ++ "/restaurant.jpg"),
   ("retail", BASE_THUMB ++ "/retail.jpg"),
   ("services", BASE_THUMB ++ "/services.jpg"),
   ("trades", BASE_THUMB ++ "/trades.jpg"),
   ("beauty", BASE_THUMB ++ "/beauty.jpg"),
   ("fitness", BASE_THUMB ++ "/fitness.jpg"),
   ("healthcare", BASE_THUMB ++ "/healthcare.jpg"),
   ("automotive", BASE_THUMB ++ "/automotive.jpg"),
   ("online", BASE_THUMB ++ "/online.jpg"),
   ("generic", BASE_THUMB ++ "/generic.jpg")]

/-- `Object.keys(categoryImages)` (src/unnamed/part_001 line 30). -/
def allowedCategories : List String := categoryImages.map Prod.fst

/-- JavaScript `trim`: strip leading and trailing whitespace. -/
def jsTrim (s : String) : String :=
  String.mk (((s.data.dropWhile Char.isWhitespace).reverse.dropWhile
    Char.isWhitespace).reverse)

/-- Category selection of src/unnamed/part_001 lines 163-173: when the model
reply's `imageCategory` is a string whose lower-cased, trimmed form is one of
the allowed categories, use it; otherwise fall back to `inferCategory` on the
business-type text. -/
def chosenCategory (imageCategory : JsVal) (businessType : String) : String :=
  match imageCategory with
  | .str sv =>
      let lowered := jsTrim (jsToLower sv)
      if lowered ∈ allowedCategories then lowered
      else inferCategory businessType
  | _ => inferCategory businessType

/-- Thumbnail choice of src/unnamed/part_001 lines 175-176:
`categoryImages[chosenCategory] || categoryImages.generic`. -/
def thumbUrl (c : String) : String :=
  match categoryImages.lookup c with
  | some u => u
  | none => BASE_THUMB ++ "/generic.jpg"

end HandlerV2

/-- Replace every newline character by the HTML line-break marker "<br>"
(the effect of `.replace(/\n/g, "<br>")`). -/
def replaceNlChars : List Char → List Char
  | [] => []
  | c :: rest =>
      if c = '\n' then '<' :: 'b' :: 'r' :: '>' :: replaceNlChars rest
      else c :: replaceNlChars rest

/-- String form of `replaceNlChars`. -/
def replaceNewlines (s : String) : String := String.mk (replaceNlChars s.data)

/-- Rendering of `${confidence || "Medium"}` (src/api/valuation.js line 186
and the same template expression in both src/unnamed variants). -/
def renderedConfidence (v : JsVal) : String :=
  jsToString (jsOr v (.str "Medium"))

/-- Rendering of `${sellTime || "3–9 months"}` (src/api/valuation.js
line 187). -/
def renderedSellTime (v : JsVal) : String :=
  jsToString (jsOr v (.str "3–9 months"))

/-- Rendering of `${listingTitle || "Profitable business opportunity"}`
(src/api/valuation.js line 272). -/
def renderedListingTitle (v : JsVal) : String :=
  jsToString (jsOr v (.str "Profitable business opportunity"))

/-- `(notes || "").replace(/\n/g, "<br>")` (src/api/valuation.js line 134):
the fallback makes the absent case the empty string; when the `||` result is
not a string the method call `.replace` raises a TypeError, modelled as
`Except.error`. -/
def notesHtml (notes : JsVal) : Except Unit String :=
  match jsOr notes (.str "") with
  | .str s => .ok (replaceNewlines s)
  | _ => .error ()

/-- `(improvementIdeas || "").replace(/\n/g, "<br>")` (src/api/valuation.js
line 135). -/
def improvementHtml (improvementIdeas : JsVal) : Except Unit String :=
  notesHtml improvementIdeas

/-- One rendered bullet list item:
`<li style="margin-bottom:4px;">${b}</li>`. -/
def renderBullet (b : JsVal) : String :=
  "<li style=\"margin-bottom:4px;\">" ++ jsToString b ++ "</li>"

namespace Valuation

/-- `Array.isArray(listingBullets) ? listingBullets : []`
(src/api/valuation.js line 137): no cap on the number of bullets. -/
def bulletsArray (listingBullets : JsVal) : List JsVal :=
  match listingBullets with
  | .arr xs => xs
  | _ => []

/-- `bulletsArray.map(b => ...).join("")` (src/api/valuation.js
lines 138-140). -/
def bulletsHtml (listingBullets : JsVal) : String :=
  String.join ((bulletsArray listingBullets).map renderBullet)

end Valuation

namespace HandlerV2

/-- `Array.isArray(listingBullets) ? listingBullets.slice(0, 3) : []`
(src/unnamed/part_001 lines 148-150): capped to the first three bullets. -/
def bulletsArray (listingBullets : JsVal) : List JsVal :=
  match listingBullets with
  | .arr xs => xs.take 3
  | _ => []

/-- `bulletsArray.map(b => ...).join("")` (src/unnamed/part_001
lines 152-154). -/
def bulletsHtml (listingBullets : JsVal) : String :=
  String.join ((bulletsArray listingBullets).map renderBullet)

end HandlerV2

/-- The destructured request body (src/api/valuation.js lines 59-67); a
field absent from the JSON body destructures to `undefined`. -/
structure ReqBody where
  businessType : JsVal := .undefined_
  location : JsVal := .undefined_
  annualRevenue : JsVal := .undefined_
  annualProfit : JsVal := .undefined_
  yearsOperating : JsVal := .undefined_
  staffCount : JsVal := .undefined_
  email : JsVal := .undefined_

/-- The destructured model reply (src/api/valuation.js lines 115-127); the
empty-but-valid reply is the record with every field `undefined`. -/
structure ModelReply where
  lowEstimate : JsVal := .undefined_
  highEstimate : JsVal := .undefined_
  recommendedPrice : JsVal := .undefined_
  multipleRange : JsVal := .undefined_
  confidence : JsVal := .undefined_
  sellTime : JsVal := .undefined_
  notes : JsVal := .undefined_
  improvementIdeas : JsVal := .undefined_
  listingTitle : JsVal := .undefined_
  listingIntro : JsVal := .undefined_
  listingBullets : JsVal := .undefined_
  imageCategory : JsVal := .undefined_

/-- The body with every field `undefined`, the result of destructuring
`req.body || {}` when the body is absent. -/
def emptyReqBody : ReqBody := {}

/-- The empty-but-valid model reply `{}`. -/
def emptyReply : ModelReply := {}

/-- Outcome of the external language-model call combined with
`JSON.parse` of its content: the call throws, the content fails to parse,
or it parses to a reply object (a null content string is replaced by "{}"
before parsing, so it lands in the parsed case with the empty reply). -/
inductive ModelOutcome where
  | throws
  | unparsable
  | parsed (r : ModelReply)

/-- Everything a caller observes of one handler invocation: HTTP status,
JSON response body, and whether each of the two external calls was
invoked. -/
structure HandlerOutcome where
  status : Nat
  body : String
  modelCalled : Bool
  emailCalled : Bool
deriving DecidableEq

/-- Response body `{"error":"Method not allowed"}`. -/
def methodNotAllowedBody : String := "\x7b\"error\":\"Method not allowed\"\x7d"

/-- Response body `{"error":"Missing required fields"}`. -/
def missingFieldsBody : String := "\x7b\"error\":\"Missing required fields\"\x7d"

/-- Response body `{"error":"Server error"}`. -/
def serverErrorBody : String := "\x7b\"error\":\"Server error\"\x7d"

/-- Response body `{"ok":true}`. -/
def okBody : String := "\x7b\"ok\":true\x7d"

/-- The template rendering step can only throw a TypeError at the two
`.replace` calls on `notes` and `improvementIdeas`, and at
`inferCategory(businessType)` when the (truthy) business type is not a
string; every other interpolation stringifies any value. -/
def renderOk (b : ReqBody) (r : ModelReply) : Bool :=
  (match b.businessType with
   | .str _ => true
   | _ => false) &&
  (notesHtml r.notes).isOk && (improvementHtml r.improvementIdeas).isOk

/-- The handler of src/api/valuation.js lines 53-379, with the two external
collaborators as oracle arguments: method check, destructuring with the
`|| {}` default, truthiness validation of the three required fields, the
model call and JSON parse (both failure modes caught by the outer
try/catch as 500), HTML rendering, then the email send whose reported
error is only logged and never changes the 200 response. -/
def handler (method : String) (reqBody : Option ReqBody)
    (model : ModelOutcome) (_emailError : Bool) : HandlerOutcome :=
  if method ≠ "POST" then
    { status := 405, body := methodNotAllowedBody,
      modelCalled := false, emailCalled := false }
  else
    if !truthy (reqBody.getD emptyReqBody).businessType ||
        !truthy (reqBody.getD emptyReqBody).annualProfit ||
        !truthy (reqBody.getD emptyReqBody).email then
      { status := 400, body := missingFieldsBody,
        modelCalled := false, emailCalled := false }
    else
      match model with
      | .throws =>
          { status := 500, body := serverErrorBody,
            modelCalled := true, emailCalled := false }
      | .unparsable =>
          { status := 500, body := serverErrorBody,
            modelCalled := true, emailCalled := false }
      | .parsed r =>
          if renderOk (reqBody.getD emptyReqBody) r then
            { status := 200, body := okBody,
              modelCalled := true, emailCalled := true }
          else
            { status := 500, body := serverErrorBody,
              modelCalled := true, emailCalled := false }

/-- Modelled from the spec's words for claim C4 only: a field that is
"missing" or "empty". -/
def specMissingOrEmpty (v : JsVal) : Prop :=
  v = .undefined_ ∨ v = .null_ ∨ v = .str ""

/-- Modelled from the spec's words for claim C4 only: annualProfit being "a
usable numeric value" (a JS number; the claim's counterexample input is not
numeric under any reading of the phrase). -/
def specUsableNumeric (v : JsVal) : Prop := ∃ q : ℚ, v = .num q

/-- Concrete request body for claim C4: all three required fields present
and non-empty, but `annualProfit` is the non-numeric string "abc". -/
def c4Body : ReqBody :=
  { businessType := .str "Cafe in Bondi", annualProfit := .str "abc",
    email := .str "a@b.com" }

/-- Concrete request body passing validation, used by witnesses. -/
def vBody : ReqBody :=
  { businessType := .str "Cafe in Bondi", annualProfit := .str "150000",
    email := .str "a@b.com" }

/-- Concrete six-element `listingBullets` value, used by claim C8. -/
def sixBullets : JsVal :=
  .arr [.str "b1", .str "b2", .str "b3", .str "b4", .str "b5", .str "b6"]

theorem inferCategory_mem (s : String) : inferCategory s ∈ categorySet := by
  unfold inferCategory inferCategoryCore
  repeat' split
  all_goals decide

theorem inferCategory_eq_spec (s : String) :
    inferCategory s = specInferCategory s := by
  unfold inferCategory inferCategoryCore specInferCategory categoryRules
  cases h1 : matchCafe (jsToLower s) <;> simp only [h1, List.find?, if_true, if_false, Bool.false_eq_true, ite_false, ite_true]
  cases h2 : matchRestaurant (jsToLower s) <;> simp only [h2, List.find?, Bool.false_eq_true, ite_false, ite_true]
  cases h3 : matchRetail (jsToLower s) <;> simp only [h3, List.find?, Bool.false_eq_true, ite_false, ite_true]
  cases h4 : matchBeauty (jsToLower s) <;> simp only [h4, List.find?, Bool.false_eq_true, ite_false, ite_true]
  cases h5 : matchFitness (jsToLower s) <;> simp only [h5, List.find?, Bool.false_eq_true, ite_false, ite_true]
  cases h6 : matchHealthcare (jsToLower s) <;> simp only [h6, List.find?, Bool.false_eq_true, ite_false, ite_true]
  cases h7 : matchAutomotive (jsToLower s) <;> simp only [h7, List.find?, Bool.false_eq_true, ite_false, ite_true]
  cases h8 : matchTrades (jsToLower s) <;> simp only [h8, List.find?, Bool.false_eq_true, ite_false, ite_true]
  cases h9 : matchOnline (jsToLower s) <;> simp only [h9, List.find?, Bool.false_eq_true, ite_false, ite_true]
  cases h10 : matchServices (jsToLower s) <;> simp only [h10, List.find?, Bool.false_eq_true, ite_false, ite_true]

/-- C1: `inferCategory` is a total function into the fixed category set, its
value is the first rule, in the priority order cafe, restaurant, retail,
beauty, fitness, healthcare, automotive, trades, online, services, whose
keyword set matches the lower-cased input ("generic" when none does), and the
multiply-matching description "online beauty store" (matching the retail,
beauty and online rules) resolves to the earliest-listed matching rule,
retail. -/
theorem c1_inferCategory_total_first_match (s : String) :
    inferCategory s = specInferCategory s ∧
    inferCategory s ∈ categorySet ∧
    matchRetail "online beauty store" = true ∧
    matchBeauty "online beauty store" = true ∧
    matchOnline "online beauty store" = true ∧
    inferCategory "online beauty store" = "retail" :=
  ⟨inferCategory_eq_spec s, inferCategory_mem s, by decide, by decide,
   by decide, by decide⟩

theorem mem_allowed_of_mem_categorySet :
    ∀ x ∈ categorySet, x ∈ HandlerV2.allowedCategories := by decide

theorem lookup_isSome_of_mem_allowed :
    ∀ x ∈ HandlerV2.allowedCategories,
      (HandlerV2.categoryImages.lookup x).isSome = true := by decide

theorem chosenCategory_mem (img : JsVal) (bt : String) :
    HandlerV2.chosenCategory img bt ∈ HandlerV2.allowedCategories := by
  unfold HandlerV2.chosenCategory
  have hb := mem_allowed_of_mem_categorySet _ (inferCategory_mem bt)
  match img with
  | .undefined_ | .null_ | .nan | .bool_ _ | .num _ | .arr _ | .obj => exact hb
  | .str sv =>
      by_cases h : HandlerV2.jsTrim (jsToLower sv) ∈ HandlerV2.allowedCategories
      · simp [h]
      · simp [h]
        exact hb

/-- C2: for every model reply, if the reply's `imageCategory`, lower-cased
and trimmed, exactly equals one of the eleven fixed category values, that
value is the selected category; whenever `imageCategory` is absent, not a
string, or not in the fixed set after lower-casing and trimming, the
selected category is `inferCategory` of the request's business-type text;
the selected category is always one of the fixed set and always has a
thumbnail image in the category-to-thumbnail map. -/
theorem c2_chosenCategory_precedence (img : JsVal) (bt : String) :
    HandlerV2.chosenCategory img bt ∈ HandlerV2.allowedCategories ∧
    (HandlerV2.categoryImages.lookup (HandlerV2.chosenCategory img bt)).isSome
      = true ∧
    (∀ sv, img = JsVal.str sv →
      HandlerV2.jsTrim (jsToLower sv) ∈ HandlerV2.allowedCategories →
      HandlerV2.chosenCategory img bt = HandlerV2.jsTrim (jsToLower sv)) ∧
    ((∀ sv, img = JsVal.str sv →
        HandlerV2.jsTrim (jsToLower sv) ∉ HandlerV2.allowedCategories) →
      HandlerV2.chosenCategory img bt = inferCategory bt) := by
  refine ⟨chosenCategory_mem img bt,
    lookup_isSome_of_mem_allowed _ (chosenCategory_mem img bt), ?_, ?_⟩
  · rintro sv rfl h
    simp [HandlerV2.chosenCategory, h]
  · intro h
    unfold HandlerV2.chosenCategory
    match img with
    | .undefined_ | .null_ | .nan | .bool_ _ | .num _ | .arr _ | .obj => rfl
    | .str sv => simp [h sv rfl]

theorem c2_chosenCategory_precedence_witness :
    HandlerV2.chosenCategory (JsVal.str " CAFE ") "bakery" = "cafe" ∧
    HandlerV2.chosenCategory (JsVal.str "fancyshop") "Cafe in Bondi" = "cafe" ∧
    HandlerV2.chosenCategory JsVal.undefined_ "Cafe in Bondi" = "cafe" := by
  refine ⟨?_, ?_, ?_⟩
  · have h := (c2_chosenCategory_precedence (JsVal.str " CAFE ") "bakery").2.2.1
      " CAFE " rfl (by decide)
    simpa using h
  · have h := (c2_chosenCategory_precedence (JsVal.str "fancyshop")
      "Cafe in Bondi").2.2.2
      (by rintro sv ⟨⟩; decide)
    rw [h]; decide
  · have h := (c2_chosenCategory_precedence JsVal.undefined_ "Cafe in Bondi").2.2.2
      (by rintro sv ⟨⟩)
    rw [h]; decide

theorem jsRound_nearest (q : ℚ) : |(jsRound q : ℚ) - q| ≤ 1 / 2 := by
  have h1 : ((jsRound q : ℤ) : ℚ) ≤ q + 1 / 2 := Int.floor_le _
  have h2 : q + 1 / 2 - 1 < ((jsRound q : ℤ) : ℚ) := Int.sub_one_lt_floor _
  rw [abs_le]
  constructor <;> [linarith; linarith]

/-- C3: `formatAUD` returns "-" on nullish input and on input that does not
coerce to a finite number; on input coercing to a finite number it renders a
nearest whole number (`Math.round`, halves up) with en-AU thousands
grouping; in particular 1234567.8 formats as "1,234,568". -/
theorem c3_formatAUD (q : ℚ) :
    formatAUD JsNumArg.nullish = "-" ∧
    formatAUD JsNumArg.nanLike = "-" ∧
    (∃ n : ℤ, |(n : ℚ) - q| ≤ 1 / 2 ∧
      formatAUD (JsNumArg.finite q) = toLocaleStringInt n) ∧
    formatAUD (JsNumArg.finite (1234567.8 : ℚ)) = "1,234,568" := by
  refine ⟨rfl, rfl, ⟨jsRound q, jsRound_nearest q, rfl⟩, ?_⟩
  have h : jsRound (1234567.8 : ℚ) = 1234568 := by
    unfold jsRound
    rw [Int.floor_eq_iff]
    norm_num
  show toLocaleStringInt (jsRound (1234567.8 : ℚ)) = "1,234,568"
  rw [h]
  decide

theorem replaceNlChars_append_nl (a b : List Char) :
    replaceNlChars (a ++ '\n' :: b) =
      replaceNlChars a ++ '<' :: 'b' :: 'r' :: '>' :: replaceNlChars b := by
  induction a with
  | nil => simp [replaceNlChars]
  | cons c cs ih =>
      by_cases hc : c = '\n' <;> simp [replaceNlChars, hc, ih]

theorem replaceNlChars_of_no_nl (l : List Char) (h : ∀ c ∈ l, c ≠ '\n') :
    replaceNlChars l = l := by
  induction l with
  | nil => rfl
  | cons c cs ih =>
      have hc : c ≠ '\n' := h c (List.mem_cons_self c cs)
      simp only [replaceNlChars, if_neg hc]
      rw [ih (fun d hd => h d (List.mem_cons_of_mem c hd))]

/-- C4 fails on the code: with all three required fields present and
non-empty but `annualProfit` the non-numeric string "abc" — not a usable
numeric value under the spec's words — the handler does not respond 400; it
passes validation and reaches the external model call (responding 200 when
the rest of the pipeline succeeds). -/
theorem c4_counterexample :
    (¬ specUsableNumeric c4Body.annualProfit) ∧
    (handler "POST" (some c4Body) (.parsed emptyReply) false).status = 200 ∧
    (handler "POST" (some c4Body) (.parsed emptyReply) false).modelCalled
      = true := by
  refine ⟨?_, by decide, by decide⟩
  rintro ⟨q, h⟩
  simp [c4Body] at h

/-- C4 amended: the handler responds 400 with the missing-fields body and
invokes neither external call exactly when one of businessType,
annualProfit, email is falsy (absent, null, false, the number 0, NaN, or
the empty string); when all three are truthy — annualProfit need not be
numeric — validation passes and the external model call is reached. -/
theorem c4_amended (b : ReqBody) (model : ModelOutcome) (e : Bool) :
    ((handler "POST" (some b) model e).status = 400 ↔
        truthy b.businessType = false ∨ truthy b.annualProfit = false ∨
          truthy b.email = false) ∧
    ((handler "POST" (some b) model e).status = 400 →
        handler "POST" (some b) model e =
          { status := 400, body := missingFieldsBody,
            modelCalled := false, emailCalled := false }) ∧
    (truthy b.businessType = true → truthy b.annualProfit = true →
      truthy b.email = true →
      (handler "POST" (some b) model e).modelCalled = true) := by
  unfold handler
  rw [if_neg (by simp : ¬ ("POST" : String) ≠ "POST")]
  simp only [Option.getD]
  cases hb : truthy b.businessType <;>
    cases ha : truthy b.annualProfit <;>
      cases he : truthy b.email <;>
        simp only [Bool.not_true, Bool.not_false, Bool.true_or, Bool.or_true,
          Bool.false_or, Bool.or_false, if_true, if_false, Bool.false_eq_true,
          ite_true, ite_false] <;>
    (cases model with
     | throws => simp
     | unparsable => simp
     | parsed r =>
         cases hr : renderOk b r <;> simp [hr])

theorem c4_amended_witness :
    (handler "POST" (some emptyReqBody) (.parsed emptyReply) false).status
      = 400 ∧
    (handler "POST" (some vBody) ModelOutcome.throws false).modelCalled
      = true := by
  constructor
  · exact (c4_amended emptyReqBody (.parsed emptyReply) false).1.mpr
      (Or.inl (by decide))
  · exact (c4_amended vBody ModelOutcome.throws false).2.2
      (by decide) (by decide) (by decide)

/-- C5 fails on the code: the rendering of `confidence` is
`confidence || "Medium"`, so the truthy string "Certain" — not one of
Low, Medium, High — renders verbatim instead of defaulting to "Medium". -/
theorem c5_counterexample :
    renderedConfidence (JsVal.str "Certain") = "Certain" ∧
    ("Certain" ∉ (["Low", "Medium", "High"] : List String)) ∧
    renderedConfidence (JsVal.str "Certain") ≠ "Medium" := by
  have h : renderedConfidence (JsVal.str "Certain") = "Certain" := by
    simp [renderedConfidence, jsOr, truthy, jsToString]
  exact ⟨h, by decide, by rw [h]; decide⟩

/-- C5 amended: confidence renders as "Medium" whenever it is absent (or
falsy); any truthy value — whether or not it is one of Low, Medium, High —
renders verbatim; sellTime defaults to "3–9 months" when absent,
listingTitle to "Profitable business opportunity"; notes and
improvementIdeas render as the empty string when absent (never the word
"undefined"), newline characters being replaced by the "<br>" marker; so
the empty-but-valid reply yields exactly these defaults. -/
theorem c5_amended :
    renderedConfidence JsVal.undefined_ = "Medium" ∧
    (∀ s : String, s ≠ "" → renderedConfidence (JsVal.str s) = s) ∧
    renderedSellTime JsVal.undefined_ = "3–9 months" ∧
    renderedListingTitle JsVal.undefined_ = "Profitable business opportunity" ∧
    notesHtml JsVal.undefined_ = Except.ok "" ∧
    improvementHtml JsVal.undefined_ = Except.ok "" ∧
    (∀ s : String, s ≠ "" →
      notesHtml (JsVal.str s) = Except.ok (replaceNewlines s)) ∧
    (∀ a b : List Char,
      replaceNlChars (a ++ '\n' :: b) =
        replaceNlChars a ++ '<' :: 'b' :: 'r' :: '>' :: replaceNlChars b) ∧
    (∀ l : List Char, (∀ c ∈ l, c ≠ '\n') → replaceNlChars l = l) := by
  refine ⟨?_, ?_, ?_, ?_, ?_, ?_, ?_,
    replaceNlChars_append_nl, replaceNlChars_of_no_nl⟩
  · simp [renderedConfidence, jsOr, truthy, jsToString]
  · intro s hs
    simp [renderedConfidence, jsOr, truthy, bne_iff_ne, hs, jsToString]
  · simp [renderedSellTime, jsOr, truthy, jsToString]
  · simp [renderedListingTitle, jsOr, truthy, jsToString]
  · rfl
  · rfl
  · intro s hs
    simp [notesHtml, jsOr, truthy, bne_iff_ne, hs]

theorem c5_amended_witness :
    renderedConfidence (JsVal.str "High") = "High" ∧
    notesHtml (JsVal.str "ab") = Except.ok (replaceNewlines "ab") ∧
    replaceNlChars ['x'] = ['x'] :=
  ⟨c5_amended.2.1 "High" (by decide),
   c5_amended.2.2.2.2.2.2.1 "ab" (by decide),
   c5_amended.2.2.2.2.2.2.2.2 ['x'] (by decide)⟩

/-- C6: whenever the model call throws, or its reply cannot be parsed as
JSON, a validated POST request is answered 500 with the server-error body
and the email-send call is never invoked. -/
theorem c6_model_failure_500 (b : ReqBody) (e : Bool)
    (h1 : truthy b.businessType = true) (h2 : truthy b.annualProfit = true)
    (h3 : truthy b.email = true) :
    handler "POST" (some b) ModelOutcome.throws e =
      { status := 500, body := serverErrorBody,
        modelCalled := true, emailCalled := false } ∧
    handler "POST" (some b) ModelOutcome.unparsable e =
      { status := 500, body := serverErrorBody,
        modelCalled := true, emailCalled := false } := by
  unfold handler
  simp [h1, h2, h3]

theorem c6_model_failure_500_witness :
    handler "POST" (some vBody) ModelOutcome.throws false =
      { status := 500, body := serverErrorBody,
        modelCalled := true, emailCalled := false } :=
  (c6_model_failure_500 vBody false (by decide) (by decide) (by decide)).1

theorem handler_emailCalled_200 (method : String) (b : Option ReqBody)
    (model : ModelOutcome) (e : Bool)
    (h : (handler method b model e).emailCalled = true) :
    handler method b model e =
      { status := 200, body := okBody,
        modelCalled := true, emailCalled := true } := by
  unfold handler at h ⊢
  by_cases hm : method ≠ "POST"
  · rw [if_pos hm] at h
    exact absurd h (by simp)
  · rw [if_neg hm] at h ⊢
    by_cases hv : (!truthy (b.getD emptyReqBody).businessType ||
        !truthy (b.getD emptyReqBody).annualProfit ||
        !truthy (b.getD emptyReqBody).email) = true
    · rw [if_pos hv] at h
      exact absurd h (by simp)
    · rw [if_neg hv] at h ⊢
      cases model with
      | throws => simp at h
      | unparsable => simp at h
      | parsed r =>
          by_cases hr : renderOk (b.getD emptyReqBody) r = true
          · simp [hr]
          · simp [hr] at h

/-- C7: the handler's outcome does not depend on the email-error report at
all, and every request that reaches the email-send step is answered 200
with the ok body, whether or not the provider reports a delivery error. -/
theorem c7_email_error_never_surfaces (method : String) (b : Option ReqBody)
    (model : ModelOutcome) (e e' : Bool) :
    handler method b model e = handler method b model e' ∧
    ((handler method b model e).emailCalled = true →
      (handler method b model e).status = 200 ∧
      (handler method b model e).body = okBody) := by
  refine ⟨rfl, fun h => ?_⟩
  rw [handler_emailCalled_200 method b model e h]
  exact ⟨rfl, rfl⟩

theorem c7_email_error_never_surfaces_witness :
    handler "POST" (some vBody) (.parsed emptyReply) true =
      handler "POST" (some vBody) (.parsed emptyReply) false ∧
    (handler "POST" (some vBody) (.parsed emptyReply) true).status = 200 := by
  have h := c7_email_error_never_surfaces "POST" (some vBody)
    (.parsed emptyReply) true false
  exact ⟨h.1, (h.2 (by decide)).1⟩

/-- C8 fails on the code: a six-element `listingBullets` array renders all
six bullets in src/api/valuation.js (no cap at all, exceeding both 3 and
5), while the src/unnamed/part_001 variant renders only the first three, so
no single fixed cap is applied consistently across the implementation. -/
theorem c8_counterexample :
    (Valuation.bulletsArray sixBullets).length = 6 ∧
    (HandlerV2.bulletsArray sixBullets).length = 3 ∧
    Valuation.bulletsArray sixBullets ≠ HandlerV2.bulletsArray sixBullets := by
  refine ⟨rfl, rfl, fun h => ?_⟩
  have hl := congrArg List.length h
  exact absurd hl (by decide)

/-- C8 amended: when `listingBullets` is not an array neither variant
renders any bullet item; when it is an array, src/api/valuation.js renders
exactly its entries in order with no cap, while the src/unnamed/part_001
variant renders exactly its first three entries in order. -/
theorem c8_amended (v : JsVal) (xs : List JsVal)
    (hv : ∀ ys, v ≠ JsVal.arr ys) :
    Valuation.bulletsArray v = [] ∧
    HandlerV2.bulletsArray v = [] ∧
    Valuation.bulletsArray (JsVal.arr xs) = xs ∧
    HandlerV2.bulletsArray (JsVal.arr xs) = xs.take 3 ∧
    Valuation.bulletsHtml (JsVal.arr xs) = String.join (xs.map renderBullet) ∧
    HandlerV2.bulletsHtml (JsVal.arr xs) =
      String.join ((xs.take 3).map renderBullet) := by
  refine ⟨?_, ?_, rfl, rfl, rfl, rfl⟩ <;>
    cases v <;> first | rfl | exact absurd rfl (hv _)

theorem c8_amended_witness :
    Valuation.bulletsArray (JsVal.str "x") = [] ∧
    HandlerV2.bulletsArray (JsVal.str "x") = [] :=
  have h := c8_amended (JsVal.str "x") [] (fun _ h => JsVal.noConfusion h)
  ⟨h.1, h.2.1⟩

/-- C9: every request whose method is not POST is answered 405 with the
method-not-allowed body, and neither external call is invoked. -/
theorem c9_non_post_405 (method : String) (b : Option ReqBody)
    (model : ModelOutcome) (e : Bool) (h : method ≠ "POST") :
    handler method b model e =
      { status := 405, body := methodNotAllowedBody,
        modelCalled := false, emailCalled := false } := by
  unfold handler
  rw [if_pos h]

theorem c9_non_post_405_witness :
    handler "GET" none (.parsed emptyReply) false =
      { status := 405, body := methodNotAllowedBody,
        modelCalled := false, emailCalled := false } :=
  c9_non_post_405 "GET" none (.parsed emptyReply) false (by decide)

/-- C10: a POST request with an absent body (undefined or null `req.body`)
does not make the handler throw: the `|| {}` default makes every required
field undefined, so the handler answers 400 with the missing-fields body
and invokes neither external call. -/
theorem c10_absent_body_400 (model : ModelOutcome) (e : Bool) :
    handler "POST" none model e =
      { status := 400, body := missingFieldsBody,
        modelCalled := false, emailCalled := false } := by
  unfold handler
  rw [if_neg (by simp : ¬ ("POST" : String) ≠ "POST")]
  rfl
